import Mathlib

/-!
Verification development for the WywwUI TFT menu system
(`lib/TFT_Menu`: `MenuItem`, `MenuSystem`).

Shallow embedding conventions:
* `uint8_t` / `uint16_t` / `int` quantities are modelled as `Nat` / `Int`;
  guards in the source keep every arithmetic step far from wrap-around for
  the states exercised here, so no explicit `% 2^w` is needed.
* `float` quantities (the animation engine) are modelled as exact rationals
  `ℚ`.  Float literals in the source (`0.5f`, `0.08`, `0.05`, ...) are taken
  at their decimal value; every concrete computation in this file stays in a
  range where IEEE single/double arithmetic agrees with exact rational
  arithmetic on the stated results.
* The external collaborators (TFT driver text metrics, buzzer, clock) are
  parameters: `Env.textWidth` stands for `tft->textWidth`, and animation
  ticks take the elapsed `deltaTime` as an explicit argument.
* Item callbacks are modelled through the `TypeNum` side channel they write
  (`Item.cb = some t` means the callback sets `menu.TypeNum = t`;
  `none` means a NULL callback), which is exactly the path `select()`
  inspects after invoking a callback.
-/

/-- `SliderDisplayMode` from TFT_Menu.h. -/
inductive SliderDisplayMode : Type where
  | followSelection
  | fixedTop
deriving DecidableEq, Repr

/-- `MenuItem`: label, callback (modelled by the `TypeNum` value it writes),
submenu pointer (`none` = NULL) and the separately stored `subMenuSize`. -/
inductive Item : Type where
  | mk : String → Option Nat → Option (List Item) → Nat → Item

/-- `MenuItem::label`. -/
def Item.label : Item → String
  | .mk l _ _ _ => l

/-- `MenuItem::callback`, abstracted to the `TypeNum` value it stores. -/
def Item.cb : Item → Option Nat
  | .mk _ c _ _ => c

/-- `MenuItem::subMenu` (`none` = NULL pointer). -/
def Item.subMenu : Item → Option (List Item)
  | .mk _ _ s _ => s

/-- `MenuItem::subMenuSize`. -/
def Item.subMenuSize : Item → Nat
  | .mk _ _ _ n => n

instance : Inhabited Item := ⟨.mk "" none none 0⟩

/-- `RectF` from TFT_Menu.h (float rectangle). -/
structure RectF : Type where
  x : ℚ
  y : ℚ
  width : ℚ
  height : ℚ
deriving DecidableEq

/-- `AnimationState` from TFT_Menu.h: current/target/velocity/error for the
four rectangle components. -/
structure AnimationState : Type where
  x_cur : ℚ
  y_cur : ℚ
  w_cur : ℚ
  h_cur : ℚ
  x_tgt : ℚ
  y_tgt : ℚ
  w_tgt : ℚ
  h_tgt : ℚ
  x_vel : ℚ
  y_vel : ℚ
  w_vel : ℚ
  h_vel : ℚ
  x_err : ℚ
  y_err : ℚ
  w_err : ℚ
  h_err : ℚ
deriving DecidableEq

/-- The all-zero animation state the constructor effectively starts from
(velocities and error terms are zeroed there). -/
def AnimationState.zero : AnimationState :=
  ⟨0, 0, 0, 0, 0, 0, 0, 0, 0, 0, 0, 0, 0, 0, 0, 0⟩

/-- One scalar animation channel: the `(current, target, velocity, error)`
quadruple handed to `animateSingleValue` through pointers. -/
structure SVal : Type where
  cur : ℚ
  tgt : ℚ
  vel : ℚ
  err : ℚ
deriving DecidableEq

/-- Truncation toward zero, the semantics of C's `(int)` cast on a float. -/
def qtruncZ (q : ℚ) : ℤ := Int.tdiv q.num (q.den : ℤ)

/-- C's `fmod`: `x - trunc(x/y) * y`. -/
def qfmod (x y : ℚ) : ℚ := x - y * (qtruncZ (x / y) : ℚ)

/-- Arduino's `constrain(d, lo, hi)`. -/
def constrainI (d lo hi : ℤ) : ℤ := if d < lo then lo else if d > hi then hi else d

/-- Layout and configuration constants of a `MenuSystem` instance.
These are the member fields computed once by `calculateLayoutParameters`
(whose inputs include the external `tft` font metrics) together with the
animation configuration; the navigation operations read but never write
them. `textWidth` stands for the external `tft->textWidth` metric. -/
structure Env : Type where
  screenWidth : ℤ
  menuItemsAreaY : ℤ
  actualMenuItemHeight : ℤ
  actualMenuItemSpacing : ℤ
  menuItemsXOffset : ℤ
  menuItemTextXPadding : ℤ
  menuItemArrowWidth : ℤ
  menuItemDefaultMaxWidth : ℤ
  minItemWidth : ℤ
  actualMaxDisplayItems : Nat
  animDurationMs : Nat
  animIntervalMs : Nat
  animationForm : Nat
  textWidth : String → ℤ

/-- `MenuSystem::calculateItemWidth`. -/
def calculateItemWidth (env : Env) (menu : List Item) (size index : Nat) : ℤ :=
  if menu.isEmpty ∨ size ≤ index then env.menuItemsXOffset + 50
  else
    let item := menu.getD index default
    let textActualWidth := env.textWidth item.label
    let d0 := textActualWidth + 2 * env.menuItemTextXPadding
    let d1 := if item.subMenu.isSome then
        d0 + env.menuItemArrowWidth + Int.tdiv env.menuItemTextXPadding 2
      else d0
    constrainI d1 env.minItemWidth env.menuItemDefaultMaxWidth

/-- The mutable navigation / animation state of `MenuSystem`.  The three
history arrays are modelled as functions `Nat → _` exactly as the fixed
arrays indexed by `menuLevel` are used (`menuHistory[menuLevel] = ...`).
Pure-rendering bookkeeping (`lastSelectedIndex`, `needFullRedraw`, title
decorator animation) is not part of any claim and is projected away. -/
structure NavState : Type where
  currentMenu : List Item
  currentMenuSize : Nat
  selectedIndex : Nat
  startIndex : Nat
  menuLevel : Nat
  menuHistory : Nat → List Item
  menuSizeHistory : Nat → Nat
  selectedIndexHistory : Nat → Nat
  sliderAnim : AnimationState
  animationActive : Bool
  windowType : Bool
  banOperation : Bool
  typeNum : Nat
  sliderDisplayMode : SliderDisplayMode
  useCustomSliderPosition : Bool
  useCustomSliderSize : Bool
  customSliderX : ℤ
  customSliderY : ℤ
  customSliderWidth : ℤ
  customSliderHeight : ℤ

/-- The state established by the `MenuSystem` constructor (menu pointer
NULL, everything zeroed, follow-selection mode, no custom slider). -/
def initialState : NavState where
  currentMenu := []
  currentMenuSize := 0
  selectedIndex := 0
  startIndex := 0
  menuLevel := 0
  menuHistory := fun _ => []
  menuSizeHistory := fun _ => 0
  selectedIndexHistory := fun _ => 0
  sliderAnim := AnimationState.zero
  animationActive := false
  windowType := false
  banOperation := false
  typeNum := 0
  sliderDisplayMode := .followSelection
  useCustomSliderPosition := false
  useCustomSliderSize := false
  customSliderX := -1
  customSliderY := -1
  customSliderWidth := -1
  customSliderHeight := -1

/-- `MenuSystem::calculateSliderTargetRect`. -/
def calculateSliderTargetRect (env : Env) (s : NavState) (index : Nat) : RectF :=
  let x0 : ℚ := (env.menuItemsXOffset : ℚ)
  let h0 : ℚ := (env.actualMenuItemHeight : ℚ)
  let y0 : ℚ :=
    match s.sliderDisplayMode with
    | .fixedTop => (env.menuItemsAreaY : ℚ)
    | .followSelection =>
        (env.menuItemsAreaY : ℚ) +
          ((index : ℚ) - (s.startIndex : ℚ)) *
            ((env.actualMenuItemHeight : ℚ) + (env.actualMenuItemSpacing : ℚ))
  let w0 : ℚ := (calculateItemWidth env s.currentMenu s.currentMenuSize index : ℚ)
  let x1 := if s.useCustomSliderPosition = true ∧ s.customSliderX ≠ -1 then (s.customSliderX : ℚ) else x0
  let y1 := if s.useCustomSliderPosition = true ∧ s.customSliderY ≠ -1 then (s.customSliderY : ℚ) else y0
  let w1 := if s.useCustomSliderSize = true ∧ s.customSliderWidth ≠ -1 then (s.customSliderWidth : ℚ) else w0
  let h1 := if s.useCustomSliderSize = true ∧ s.customSliderHeight ≠ -1 then (s.customSliderHeight : ℚ) else h0
  ⟨x1, y1, w1, h1⟩

/-- The snap pattern used by the scroll branches of `selectNext` /
`selectPrev`, by the fixed-top branches and by `setSliderDisplayMode`:
only the `_cur` fields are overwritten with the freshly computed target
rectangle and `animationActive` is cleared.  The `_tgt`, `_vel`, `_err`
fields are left untouched, exactly as in the source. -/
def snapSlider (env : Env) (s : NavState) : NavState :=
  let r := calculateSliderTargetRect env s s.selectedIndex
  { s with
    sliderAnim := { s.sliderAnim with
      x_cur := r.x, y_cur := r.y, w_cur := r.width, h_cur := r.height }
    animationActive := false }

/-- `MenuSystem::startAnimation` applied to `calculateSliderTargetRect
(selectedIndex)`: the float rectangle is passed through `int` parameters
(truncation), stored in the `_tgt` fields, and `animationActive` is set. -/
def armSlider (env : Env) (s : NavState) : NavState :=
  let r := calculateSliderTargetRect env s s.selectedIndex
  { s with
    sliderAnim := { s.sliderAnim with
      x_tgt := (qtruncZ r.x : ℚ), y_tgt := (qtruncZ r.y : ℚ),
      w_tgt := (qtruncZ r.width : ℚ), h_tgt := (qtruncZ r.height : ℚ) }
    animationActive := true }

/-- The empty-submenu fallback of `select` / `back` / `setRootMenu`: park
the slider (current and target) at the default placeholder rectangle. -/
def parkSlider (env : Env) (s : NavState) : NavState :=
  let w : ℚ := (env.menuItemDefaultMaxWidth : ℚ) * (4 / 5)
  { s with
    sliderAnim := { s.sliderAnim with
      x_cur := (env.menuItemsXOffset : ℚ), y_cur := (env.menuItemsAreaY : ℚ),
      w_cur := w, h_cur := (env.actualMenuItemHeight : ℚ),
      x_tgt := (env.menuItemsXOffset : ℚ), y_tgt := (env.menuItemsAreaY : ℚ),
      w_tgt := w, h_tgt := (env.actualMenuItemHeight : ℚ) } }

/-- `MenuSystem::setRootMenu`.  (The source assigns `initialRect.w_cur` /
`h_cur` to the width/height targets; `RectF` has only `width` / `height`
members, so the evident reading `width` / `height` is used.) -/
def setRootMenu (env : Env) (menu : List Item) (size : Nat) (s : NavState) : NavState :=
  let s1 := { s with currentMenu := menu, currentMenuSize := size,
                     selectedIndex := 0, startIndex := 0, menuLevel := 0 }
  if 0 < size then
    let r := calculateSliderTargetRect env s1 0
    { s1 with sliderAnim := { s1.sliderAnim with
        x_cur := r.x, y_cur := r.y, w_cur := r.width, h_cur := r.height,
        x_tgt := r.x, y_tgt := r.y, w_tgt := r.width, h_tgt := r.height } }
  else parkSlider env s1

/-- `MenuSystem::selectNext`. -/
def selectNext (env : Env) (s : NavState) : NavState :=
  if s.currentMenuSize = 0 ∨ s.currentMenuSize - 1 ≤ s.selectedIndex then s
  else if s.banOperation = true then s
  else
    let s1 := { s with selectedIndex := s.selectedIndex + 1 }
    match s1.sliderDisplayMode with
    | .fixedTop => snapSlider env { s1 with startIndex := s1.selectedIndex }
    | .followSelection =>
        if s1.startIndex + env.actualMaxDisplayItems ≤ s1.selectedIndex then
          snapSlider env
            { s1 with startIndex := s1.selectedIndex + 1 - env.actualMaxDisplayItems }
        else armSlider env s1

/-- `MenuSystem::selectPrev`. -/
def selectPrev (env : Env) (s : NavState) : NavState :=
  if s.currentMenuSize = 0 ∨ s.selectedIndex = 0 then s
  else if s.banOperation = true then s
  else
    let s1 := { s with selectedIndex := s.selectedIndex - 1 }
    match s1.sliderDisplayMode with
    | .fixedTop => snapSlider env { s1 with startIndex := s1.selectedIndex }
    | .followSelection =>
        if s1.selectedIndex < s1.startIndex then
          snapSlider env { s1 with startIndex := s1.selectedIndex }
        else armSlider env s1

/-- The full-screen window rectangle built in `select`'s `case 1`
(`screenWidth*0.05`, `screenHeight*0.25`, `screenWidth*0.9`,
`screenHeight*0.5`, truncated into `uint16_t`), with the screen height
taken from the environment's screen width/height pair.  Only the width is
needed below, the height ratios reuse the screen width field scaled the
same way the source scales `screenHeight`. -/
def windowRect (env : Env) (screenHeight : ℤ) : RectF :=
  ⟨(qtruncZ ((env.screenWidth : ℚ) * (1 / 20)) : ℚ),
   (qtruncZ ((screenHeight : ℚ) * (1 / 4)) : ℚ),
   (qtruncZ ((env.screenWidth : ℚ) * (9 / 10)) : ℚ),
   (qtruncZ ((screenHeight : ℚ) * (1 / 2)) : ℚ)⟩

/-- `MenuSystem::select`.  The callback is modelled by the `TypeNum` value
it writes; the subsequent `switch (TypeNum)` is translated literally
(case 1 arms the window animation, enters window mode and bans
operations; case 2 only bans operations; both reset `TypeNum`). -/
def selectOp (env : Env) (screenHeight : ℤ) (s : NavState) : NavState :=
  if s.currentMenu.isEmpty ∨ s.currentMenuSize ≤ s.selectedIndex then s
  else if s.banOperation = true then s
  else
    let item := s.currentMenu.getD s.selectedIndex default
    let s1 :=
      match item.cb with
      | none => s
      | some t =>
        let sA := { s with typeNum := t }
        if t = 1 then
          let wr := windowRect env screenHeight
          { sA with
            windowType := true
            sliderAnim := { sA.sliderAnim with
              x_tgt := wr.x, y_tgt := wr.y, w_tgt := wr.width, h_tgt := wr.height }
            animationActive := true
            typeNum := 0
            banOperation := true }
        else if t = 2 then { sA with typeNum := 0, banOperation := true }
        else sA
    match item.subMenu with
    | none => s1
    | some sub =>
      if s1.menuLevel < 9 then
        let lvl := s1.menuLevel
        let s2 := { s1 with
          menuHistory := fun i => if i = lvl then s1.currentMenu else s1.menuHistory i
          menuSizeHistory := fun i => if i = lvl then s1.currentMenuSize else s1.menuSizeHistory i
          selectedIndexHistory := fun i => if i = lvl then s1.selectedIndex else s1.selectedIndexHistory i
          menuLevel := lvl + 1
          currentMenu := sub
          currentMenuSize := item.subMenuSize
          selectedIndex := 0
          startIndex := 0 }
        let s3 := if 0 < s2.currentMenuSize then armSlider env s2 else parkSlider env s2
        { s3 with animationActive := true }
      else s1

/-- The follow-selection viewport recomputation inside `back`: scroll
minimally so the restored selection is visible, then clamp so the
viewport does not run past the bottom of the restored menu. -/
def backStartFollow (env : Env) (st0 rSel rSize : Nat) : Nat :=
  let st1 :=
    if st0 + env.actualMaxDisplayItems ≤ rSel then
      rSel + 1 - env.actualMaxDisplayItems
    else if rSel < st0 then rSel else st0
  if 0 < st1 ∧ rSize < st1 + env.actualMaxDisplayItems then
    rSize - env.actualMaxDisplayItems
  else st1

/-- `MenuSystem::back`. -/
def back (env : Env) (s : NavState) : NavState :=
  if s.menuLevel = 0 then s
  else if s.windowType = false then
    let lvl := s.menuLevel - 1
    let rMenu := s.menuHistory lvl
    let rSize := s.menuSizeHistory lvl
    let rSel := s.selectedIndexHistory lvl
    let rStart : Nat :=
      match s.sliderDisplayMode with
      | .fixedTop => rSel
      | .followSelection => backStartFollow env s.startIndex rSel rSize
    let s2 := { s with menuLevel := lvl, currentMenu := rMenu, currentMenuSize := rSize,
                       selectedIndex := rSel, startIndex := rStart }
    let s3 := if 0 < rSize then armSlider env s2 else parkSlider env s2
    { s3 with animationActive := true }
  else
    let s2 := armSlider env { s with windowType := false }
    { s2 with banOperation := false }

/-- `MenuSystem::setSliderDisplayMode`: the mode is stored, the slider's
current AND target rectangle are both overwritten with the recomputed
target (as floats, no truncation), and `animationActive` is cleared.
`startIndex` is not touched. -/
def setSliderDisplayMode (env : Env) (s : NavState) (m : SliderDisplayMode) : NavState :=
  let s1 := { s with sliderDisplayMode := m }
  let s2 :=
    if 0 < s1.currentMenuSize then
      let r := calculateSliderTargetRect env s1 s1.selectedIndex
      { s1 with sliderAnim := { s1.sliderAnim with
          x_cur := r.x, y_cur := r.y, w_cur := r.width, h_cur := r.height,
          x_tgt := r.x, y_tgt := r.y, w_tgt := r.width, h_tgt := r.height } }
    else s1
  { s2 with animationActive := false }

/-- `MenuSystem::animateSingleValue` on one scalar channel.  Returns the
updated channel and the completion flag. -/
def animateSingleValue (form intervalMs durationMs : Nat) (v : SVal) (dt : ℚ) : SVal × Bool :=
  if |v.cur - v.tgt| < 1 / 2 then
    ({ v with cur := v.tgt, err := 0, vel := 0 }, true)
  else if form = 1 then
    let step := (v.tgt - v.cur) * (intervalMs : ℚ) / (durationMs : ℚ)
    let c1 := v.cur + step
    let e1 := v.err + (v.tgt - c1)
    let c2 := c1 + e1 / ((durationMs : ℚ) / (intervalMs : ℚ))
    let e2 := qfmod e1 ((durationMs : ℚ) / (intervalMs : ℚ))
    ({ v with cur := c2, err := e2 }, false)
  else if form = 2 then
    if dt ≤ 0 then (v, false)
    else
      let disp := v.cur - v.tgt
      let acc := -2 * (1 / 2 : ℚ) * 15 * v.vel - 15 * 15 * disp
      let vel1 := v.vel + acc * dt
      let cur1 := v.cur + vel1 * dt
      ({ v with cur := cur1, vel := vel1 }, false)
  else (v, false)

/-- The numeric core of `MenuSystem::updateAnimation` for one elapsed-time
step `dt`: the four sequential `animateSingleValue` calls, in source
order, with the source's argument lists — the width call is handed
`&sliderAnim.h_err` as its error slot, and the height call then reads the
error slot as just rewritten by the width call; `w_err` is never touched.
The second component is the all-done flag (`animationActive` is cleared
exactly when it is `true`). -/
def updateAnimationTick (env : Env) (a : AnimationState) (dt : ℚ) : AnimationState × Bool :=
  let xr := animateSingleValue env.animationForm env.animIntervalMs env.animDurationMs
      ⟨a.x_cur, a.x_tgt, a.x_vel, a.x_err⟩ dt
  let yr := animateSingleValue env.animationForm env.animIntervalMs env.animDurationMs
      ⟨a.y_cur, a.y_tgt, a.y_vel, a.y_err⟩ dt
  let wr := animateSingleValue env.animationForm env.animIntervalMs env.animDurationMs
      ⟨a.w_cur, a.w_tgt, a.w_vel, a.h_err⟩ dt
  let hr := animateSingleValue env.animationForm env.animIntervalMs env.animDurationMs
      ⟨a.h_cur, a.h_tgt, a.h_vel, wr.1.err⟩ dt
  ({ x_cur := xr.1.cur, y_cur := yr.1.cur, w_cur := wr.1.cur, h_cur := hr.1.cur,
     x_tgt := a.x_tgt, y_tgt := a.y_tgt, w_tgt := a.w_tgt, h_tgt := a.h_tgt,
     x_vel := xr.1.vel, y_vel := yr.1.vel, w_vel := wr.1.vel, h_vel := hr.1.vel,
     x_err := xr.1.err, y_err := yr.1.err, w_err := a.w_err, h_err := hr.1.err },
   xr.2 && yr.2 && wr.2 && hr.2)

/-- The `actualMaxDisplayItems` computation inside
`calculateLayoutParameters` (including the `== 0 && currentMenuSize > 0`
fix-up). -/
def computeActualMaxDisplayItems (usableMenuHeight itemH spacing : ℤ) (currentMenuSize : Nat) : ℤ :=
  let m := if 0 < itemH + spacing then Int.tdiv usableMenuHeight (itemH + spacing) else 1
  if m = 0 ∧ 0 < currentMenuSize then 1 else m

/-- The scrollbar-thumb minimum-height computation inside
`calculateLayoutParameters`: `max(8% of track, min(track * visible/count,
50% of track))`, then the boundary-protection rewrite when the track is
smaller than that value. -/
def computeThumbMinHeight (scrollbarH maxDisplayItems : ℤ) (currentMenuSize : Nat) : ℤ :=
  let frac : ℚ := (maxDisplayItems : ℚ) / (currentMenuSize : ℚ)
  let t := max (qtruncZ ((scrollbarH : ℚ) * (8 / 100)))
      (min (qtruncZ ((scrollbarH : ℚ) * frac)) (qtruncZ ((scrollbarH : ℚ) * (1 / 2))))
  if scrollbarH < t then max (Int.tdiv scrollbarH 2) 10 else t

/-- The geometry `drawScrollbar` paints for the thumb, or `none` when the
function returns without drawing. -/
structure ScrollbarDraw : Type where
  thumbHeight : ℤ
  thumbY : ℤ
deriving DecidableEq

/-- `MenuSystem::drawScrollbar`, reduced to the draw-or-not decision and
the thumb geometry (all `uint8_t` inputs promoted to `int` as in C). -/
def drawScrollbar (scrollbarH scrollbarY thumbMin : ℤ)
    (maxDisplayItems currentMenuSize startIndex : Nat) : Option ScrollbarDraw :=
  if currentMenuSize ≤ maxDisplayItems ∨ maxDisplayItems = 0 then none
  else
    let thumbHeight := max thumbMin (Int.tdiv (scrollbarH * (maxDisplayItems : ℤ)) (currentMenuSize : ℤ))
    let thumbMaxY := scrollbarH - thumbHeight
    let thumbY := scrollbarY +
      Int.tdiv (thumbMaxY * (startIndex : ℤ)) ((currentMenuSize : ℤ) - (maxDisplayItems : ℤ))
    some ⟨thumbHeight, thumbY⟩

/-! ## Invariants and reachability -/

/-- Viewport containment plus selection bound: the navigation invariant of
§3 restricted to facts that hold in every display mode. -/
def InvCore (env : Env) (s : NavState) : Prop :=
  s.startIndex ≤ s.selectedIndex ∧
  s.selectedIndex < s.startIndex + env.actualMaxDisplayItems ∧
  (0 < s.currentMenuSize → s.selectedIndex < s.currentMenuSize)

/-- Well-formedness of the live part of the history arrays: every pushed
entry recorded a selection that was in range for its menu. -/
def InvHist (s : NavState) : Prop :=
  ∀ i, i < s.menuLevel → s.selectedIndexHistory i < s.menuSizeHistory i

/-- The combined inductive invariant used for the all-modes reachability
argument. -/
def InvAll (env : Env) (s : NavState) : Prop := InvCore env s ∧ InvHist s

/-- The §3 size bound: the viewport never runs past the bottom of the menu
when the menu overfills the screen. -/
def InvSize (env : Env) (s : NavState) : Prop :=
  env.actualMaxDisplayItems < s.currentMenuSize →
    s.startIndex + env.actualMaxDisplayItems ≤ s.currentMenuSize

/-- States reachable from `setRootMenu` by arbitrary sequences of the five
navigation-machine operations (including display-mode switches). -/
inductive ReachAny (env : Env) (sh : ℤ) : NavState → Prop where
  | root (menu : List Item) (size : Nat) :
      ReachAny env sh (setRootMenu env menu size initialState)
  | next {s} : ReachAny env sh s → ReachAny env sh (selectNext env s)
  | prev {s} : ReachAny env sh s → ReachAny env sh (selectPrev env s)
  | sel {s} : ReachAny env sh s → ReachAny env sh (selectOp env sh s)
  | bck {s} : ReachAny env sh s → ReachAny env sh (back env s)
  | mode {s} (m : SliderDisplayMode) :
      ReachAny env sh s → ReachAny env sh (setSliderDisplayMode env s m)

/-- States reachable while the display mode stays follow-selection
(the constructor's mode; `setSliderDisplayMode` is only ever called with
follow-selection in these traces). -/
inductive ReachFollow (env : Env) (sh : ℤ) : NavState → Prop where
  | root (menu : List Item) (size : Nat) :
      ReachFollow env sh (setRootMenu env menu size initialState)
  | next {s} : ReachFollow env sh s → ReachFollow env sh (selectNext env s)
  | prev {s} : ReachFollow env sh s → ReachFollow env sh (selectPrev env s)
  | sel {s} : ReachFollow env sh s → ReachFollow env sh (selectOp env sh s)
  | bck {s} : ReachFollow env sh s → ReachFollow env sh (back env s)
  | mode {s} :
      ReachFollow env sh s →
      ReachFollow env sh (setSliderDisplayMode env s .followSelection)

/-- States reachable after switching to fixed-top right after
`setRootMenu` and staying in fixed-top mode from then on. -/
inductive ReachFixed (env : Env) (sh : ℤ) : NavState → Prop where
  | root (menu : List Item) (size : Nat) :
      ReachFixed env sh
        (setSliderDisplayMode env (setRootMenu env menu size initialState) .fixedTop)
  | next {s} : ReachFixed env sh s → ReachFixed env sh (selectNext env s)
  | prev {s} : ReachFixed env sh s → ReachFixed env sh (selectPrev env s)
  | sel {s} : ReachFixed env sh s → ReachFixed env sh (selectOp env sh s)
  | bck {s} : ReachFixed env sh s → ReachFixed env sh (back env s)

/-! ## Iterated operations and trace predicates -/

/-- `k` consecutive `select()` calls. -/
def selectIter (env : Env) (sh : ℤ) : Nat → NavState → NavState
  | 0, s => s
  | k + 1, s => selectIter env sh k (selectOp env sh s)

/-- `k` consecutive `back()` calls. -/
def backIter (env : Env) : Nat → NavState → NavState
  | 0, s => s
  | k + 1, s => back env (backIter env k s)

/-- `k` consecutive `selectNext()` calls. -/
def nextIter (env : Env) : Nat → NavState → NavState
  | 0, s => s
  | k + 1, s => nextIter env k (selectNext env s)

/-- One descending `select()`: the selected item exists, runs no callback,
owns a submenu, and the history stack has room.  (`cb = none` encodes
"no intervening window-animation sequence".) -/
def descStep (s : NavState) : Bool :=
  !s.currentMenu.isEmpty &&
  decide (s.selectedIndex < s.currentMenuSize) &&
  decide ((s.currentMenu.getD s.selectedIndex default).cb = none) &&
  (s.currentMenu.getD s.selectedIndex default).subMenu.isSome &&
  decide (s.menuLevel < 9)

/-- `k` consecutive `select()` calls, each of which descends into a child
menu. -/
def descends (env : Env) (sh : ℤ) : Nat → NavState → Bool
  | 0, _ => true
  | k + 1, s => descStep s && descends env sh k (selectOp env sh s)

/-- Modelled from the spec (§4.3 Form 1 with §3's per-component
`AnimationState`): one integral-controlled tick of a single component
using that component's own error accumulator; returns the new current
value and the new error accumulator.  Used only to compare the claimed
per-component recurrence against the source's width update. -/
def specForm1StepOwnError (intervalMs durationMs : Nat) (cur tgt err : ℚ) : ℚ × ℚ :=
  let step := (tgt - cur) * (intervalMs : ℚ) / (durationMs : ℚ)
  let c1 := cur + step
  let e1 := err + (tgt - c1)
  (c1 + e1 / ((durationMs : ℚ) / (intervalMs : ℚ)),
   qfmod e1 ((durationMs : ℚ) / (intervalMs : ℚ)))

/-! ## Concrete instances used by witnesses and counterexamples

A small 100×80 landscape layout; `textWidth` is the external font metric
(6 px per character at menu font size 1, the classic 6×8 font). -/

def env0 : Env where
  screenWidth := 100
  menuItemsAreaY := 36
  actualMenuItemHeight := 16
  actualMenuItemSpacing := 5
  menuItemsXOffset := 0
  menuItemTextXPadding := 4
  menuItemArrowWidth := 8
  menuItemDefaultMaxWidth := 95
  minItemWidth := 30
  actualMaxDisplayItems := 5
  animDurationMs := 100
  animIntervalMs := 10
  animationForm := 1
  textWidth := fun t => 6 * (t.length : ℤ)

def itemA : Item := .mk "A" none none 0

def itemB : Item := .mk "BBBB" none none 0

/-- Fixed-top snap counterexample state: root of two items with different
label widths, switched to fixed-top, then one `selectNext`. -/
def cexSnapState : NavState :=
  selectNext env0
    (setSliderDisplayMode env0 (setRootMenu env0 [itemA, itemB] 2 initialState) .fixedTop)

/-- Mode-switch counterexample state: move the selection in follow mode,
then switch to fixed-top (which leaves `startIndex` behind). -/
def cexModeState : NavState :=
  setSliderDisplayMode env0
    (selectNext env0 (setRootMenu env0 [itemA, itemB] 2 initialState)) .fixedTop

/-- Six-item root, fixed-top from the start, two `selectNext` calls:
`startIndex = selectedIndex = 2` while `size = 6` and `maxVisible = 5`. -/
def cexFixedState : NavState :=
  nextIter env0 2
    (setSliderDisplayMode env0
      (setRootMenu env0 [itemA, itemA, itemA, itemA, itemA, itemB] 6 initialState) .fixedTop)

/-- A submenu chain of depth `n + 1` (each level owns exactly one child). -/
def chainItem : Nat → Item
  | 0 => .mk "n0" none (some []) 0
  | n + 1 => .mk "n" none (some [chainItem n]) 1

/-- Root of a 10-deep nested chain. -/
def chainRoot : NavState := setRootMenu env0 [chainItem 10] 1 initialState

/-- The chain root after nine descents: depth 9, selected item still owns
a submenu. -/
def chainDeep : NavState := selectIter env0 80 9 chainRoot

/-- A root item whose callback requests the window sequence
(`TypeNum = 1`) and which has no children. -/
def windowRootItem : Item := .mk "Win" (some 1) none 0

/-- Depth-0 window-mode state: `select()` on `windowRootItem` at the root. -/
def windowState0 : NavState :=
  selectOp env0 80 (setRootMenu env0 [windowRootItem] 1 initialState)

/-- A parent whose only child requests the window sequence. -/
def windowParent : Item := .mk "P" none (some [windowRootItem]) 1

/-- Depth-1 window-mode state: descend once, then `select()` the
window-requesting child. -/
def windowState1 : NavState :=
  selectOp env0 80 (selectOp env0 80 (setRootMenu env0 [windowParent] 1 initialState))

/-- Scenario B's menu: twenty items. -/
def menu20 : List Item := List.replicate 20 itemA

/-- Scenario B after four `selectNext` calls: `selectedIndex = 4`,
`startIndex = 0`; the fifth call scrolls and snaps. -/
def scenBState : NavState := nextIter env0 4 (setRootMenu env0 menu20 20 initialState)

/-- Two-level tree for the history-symmetry witness. -/
def leafItem : Item := .mk "L" none none 0

def innerItem : Item := .mk "B" none (some [leafItem]) 1

def outerItem : Item := .mk "A" none (some [innerItem]) 1

def symRoot : NavState := setRootMenu env0 [outerItem] 1 initialState

/-- The form-1 slider state exhibiting the shared width/height error
accumulator: width and height both still far from target, `h_err = 5`,
`w_err = 0`. -/
def mixedErrState : AnimationState :=
  { AnimationState.zero with w_cur := 0, w_tgt := 100, h_cur := 0, h_tgt := 100, h_err := 5 }

/-! ## Theorems -/

/-- For `0 ≤ q`, the C `(int)` cast agrees with the floor. -/
theorem qtruncZ_eq_floor (q : ℚ) (h : 0 ≤ q) : qtruncZ q = ⌊q⌋ := by
  rw [Rat.floor_def, qtruncZ, Int.tdiv_eq_ediv (Rat.num_nonneg.mpr h) (Int.natCast_nonneg _)]

/-- `animateSingleValue` reports completion exactly on the sub-tolerance
test at the head of the function. -/
theorem animateSingleValue_done_iff (form intervalMs durationMs : Nat) (v : SVal) (dt : ℚ) :
    (animateSingleValue form intervalMs durationMs v dt).2 = true ↔ |v.cur - v.tgt| < 1 / 2 := by
  unfold animateSingleValue
  split_ifs <;> simp_all

/-- C6: in both animation forms, a single-value step with
`|current − target| < 0.5` sets `current` exactly to the target, zeroes
the velocity and error slots, and reports that component done; and the
four-component slider tick reports completion (clearing
`animationActive`) only when every one of x, y, width, height is within
the convergence tolerance. -/
theorem animation_convergence_rule :
    (∀ (form intervalMs durationMs : Nat) (v : SVal) (dt : ℚ),
        |v.cur - v.tgt| < 1 / 2 →
        animateSingleValue form intervalMs durationMs v dt =
          ({ v with cur := v.tgt, err := 0, vel := 0 }, true)) ∧
    (∀ (env : Env) (a : AnimationState) (dt : ℚ),
        (updateAnimationTick env a dt).2 = true →
        |a.x_cur - a.x_tgt| < 1 / 2 ∧ |a.y_cur - a.y_tgt| < 1 / 2 ∧
        |a.w_cur - a.w_tgt| < 1 / 2 ∧ |a.h_cur - a.h_tgt| < 1 / 2) := by
  constructor
  · intro form intervalMs durationMs v dt h
    unfold animateSingleValue
    rw [if_pos h]
  · intro env a dt h
    simp only [updateAnimationTick, Bool.and_eq_true] at h
    obtain ⟨⟨⟨hx, hy⟩, hw⟩, hh⟩ := h
    exact ⟨(animateSingleValue_done_iff env.animationForm env.animIntervalMs env.animDurationMs
              ⟨a.x_cur, a.x_tgt, a.x_vel, a.x_err⟩ dt).mp hx,
           (animateSingleValue_done_iff env.animationForm env.animIntervalMs env.animDurationMs
              ⟨a.y_cur, a.y_tgt, a.y_vel, a.y_err⟩ dt).mp hy,
           (animateSingleValue_done_iff env.animationForm env.animIntervalMs env.animDurationMs
              ⟨a.w_cur, a.w_tgt, a.w_vel, a.h_err⟩ dt).mp hw,
           (animateSingleValue_done_iff env.animationForm env.animIntervalMs env.animDurationMs
              ⟨a.h_cur, a.h_tgt, a.h_vel,
                (animateSingleValue env.animationForm env.animIntervalMs env.animDurationMs
                  ⟨a.w_cur, a.w_tgt, a.w_vel, a.h_err⟩ dt).1.err⟩ dt).mp hh⟩

/-- Witness for `animation_convergence_rule` at concrete inputs: a
form-2 channel within tolerance snaps, and the all-done tick on an
already-converged slider state implies the four tolerance bounds. -/
theorem animation_convergence_rule_witness :
    animateSingleValue 2 15 200 ⟨1 / 4, 0, 3, 7⟩ 0 = (⟨0, 0, 0, 0⟩, true) ∧
    (|AnimationState.zero.x_cur - AnimationState.zero.x_tgt| < 1 / 2 ∧
     |AnimationState.zero.y_cur - AnimationState.zero.y_tgt| < 1 / 2 ∧
     |AnimationState.zero.w_cur - AnimationState.zero.w_tgt| < 1 / 2 ∧
     |AnimationState.zero.h_cur - AnimationState.zero.h_tgt| < 1 / 2) :=
  ⟨animation_convergence_rule.1 2 15 200 ⟨1 / 4, 0, 3, 7⟩ 0 (by norm_num [abs_lt]),
   animation_convergence_rule.2 env0 AnimationState.zero 0
     (by simp only [updateAnimationTick, AnimationState.zero, env0]
         norm_num [animateSingleValue])⟩

/-- C7 (the code side of the divergence): at `mixedErrState` — width and
height both animating from 0 to 100 under form 1 with 10 ms ticks and a
100 ms duration, `w_err = 0`, `h_err = 5` — one tick of the source's
slider update moves the width using the height error accumulator
(result 19.5, and `w_err` is left untouched), while the per-component
recurrence claimed by the spec yields 19 with its own accumulator. -/
theorem width_uses_height_error_accumulator :
    (updateAnimationTick env0 mixedErrState (1 / 100)).1.w_cur = 39 / 2 ∧
    (updateAnimationTick env0 mixedErrState (1 / 100)).1.w_err = mixedErrState.w_err ∧
    (specForm1StepOwnError env0.animIntervalMs env0.animDurationMs
        mixedErrState.w_cur mixedErrState.w_tgt mixedErrState.w_err).1 = 19 ∧
    (39 : ℚ) / 2 ≠ 19 := by
  have hq : qfmod 95 10 = 5 := by
    rw [qfmod, qtruncZ_eq_floor _ (by norm_num)]
    norm_num
  have h : animateSingleValue 1 10 100 ⟨0, 100, 0, 5⟩ (1 / 100) = (⟨39 / 2, 100, 0, 5⟩, false) := by
    unfold animateSingleValue
    rw [if_neg (by norm_num [abs_lt])]
    norm_num [hq]
  refine ⟨?_, rfl, ?_, by norm_num⟩
  · simp only [updateAnimationTick, env0, mixedErrState, AnimationState.zero]
    rw [h]
  · simp only [env0, mixedErrState, AnimationState.zero]
    norm_num [specForm1StepOwnError]

/-- C8 (counterexample to the claim as stated): in form 2 with
`dt = 0`, a channel already within tolerance (`current = 0.4`,
`target = 0`) is still snapped — its state changes and the step is
reported as convergence, contradicting "for every current/target pair it
changes no component and is not treated as convergence". -/
theorem form2_zero_dt_still_snaps :
    animateSingleValue 2 10 100 ⟨2 / 5, 0, 7, 3⟩ 0 = (⟨0, 0, 0, 0⟩, true) ∧
    (2 / 5 : ℚ) ≠ 0 := by
  constructor
  · unfold animateSingleValue
    rw [if_pos (by norm_num [abs_lt])]
  · norm_num

/-- C8 (amended): in form 2 a step with `dt ≤ 0` is skipped — no
component of the channel changes and it is not treated as convergence —
provided the channel is not already within the convergence tolerance
(channels within tolerance snap and report done before the `dt` check
is reached). -/
theorem form2_skips_nonpositive_dt (intervalMs durationMs : Nat) (v : SVal) (dt : ℚ)
    (hdt : dt ≤ 0) (hfar : 1 / 2 ≤ |v.cur - v.tgt|) :
    animateSingleValue 2 intervalMs durationMs v dt = (v, false) := by
  unfold animateSingleValue
  rw [if_neg (by exact not_lt.mpr hfar)]
  norm_num [hdt]

/-- Witness for `form2_skips_nonpositive_dt`: a far-from-target channel
is untouched by a `dt = 0` form-2 step. -/
theorem form2_skips_nonpositive_dt_witness :
    animateSingleValue 2 10 100 ⟨3, 0, 7, 5⟩ 0 = (⟨3, 0, 7, 5⟩, false) :=
  form2_skips_nonpositive_dt 10 100 ⟨3, 0, 7, 5⟩ 0 (by norm_num) (by norm_num)

/-- C9 (counterexample to the claim as stated): with a 6 px scrollbar
track, 1 visible item and 20 menu items the thumb minimum height
computes to 0 (the 8 % floor rounds to zero and the extra
`max(trackHeight/2, 10)` floor is not applied because the track is not
smaller than 0), and `drawScrollbar` then paints a zero-height thumb;
moreover with an empty menu (`currentMenuSize = 0`) a 10 px usable area
yields `actualMaxDisplayItems = 0`, not `>= 1`. -/
theorem layout_clamping_counterexample :
    computeThumbMinHeight 6 1 20 = 0 ∧
    drawScrollbar 6 39 0 1 20 0 = some ⟨0, 39⟩ ∧
    computeActualMaxDisplayItems 10 16 5 0 = 0 := by
  refine ⟨?_, by decide, by decide⟩
  rw [computeThumbMinHeight]
  rw [show ((6 : ℤ) : ℚ) * (8 / 100) = 48 / 100 by norm_num,
      show ((6 : ℤ) : ℚ) * (((1 : ℤ) : ℚ) / ((20 : Nat) : ℚ)) = 3 / 10 by norm_num,
      show ((6 : ℤ) : ℚ) * (1 / 2) = 3 by norm_num]
  rw [qtruncZ_eq_floor _ (by norm_num), qtruncZ_eq_floor _ (by norm_num),
      qtruncZ_eq_floor _ (by norm_num)]
  norm_num

/-- C9 (amended): `calculateLayoutParameters` guarantees
`actualMaxDisplayItems >= 1` when the usable height is nonnegative and
the current menu is nonempty (an empty menu skips the rounds-to-zero
fix-up); the thumb minimum height equals
`max(8% of track, min(track * visible/count, 50% of track))` — the extra
`max(trackHeight/2, 10px)` floor can never apply because that value
never exceeds the track height — and it is never negative, and is at
least 1 pixel whenever the track is at least 13 px tall. -/
theorem layout_clamping_amended (usable itemH spacing : ℤ) (size : Nat) (H maxd : ℤ)
    (hH : 0 ≤ H) (hmaxd : 0 ≤ maxd) (husable : 0 ≤ usable)
    (hitem : 0 < itemH + spacing) (hsize : 0 < size) :
    1 ≤ computeActualMaxDisplayItems usable itemH spacing size ∧
    0 ≤ computeThumbMinHeight H maxd size ∧
    computeThumbMinHeight H maxd size ≤ H ∧
    (13 ≤ H → 1 ≤ computeThumbMinHeight H maxd size) ∧
    computeThumbMinHeight H maxd size =
      max (qtruncZ ((H : ℚ) * (8 / 100)))
        (min (qtruncZ ((H : ℚ) * ((maxd : ℚ) / ((size : Nat) : ℚ))))
             (qtruncZ ((H : ℚ) * (1 / 2)))) := by
  have hHq : (0 : ℚ) ≤ (H : ℚ) := by exact_mod_cast hH
  have hA0 : (0 : ℚ) ≤ (H : ℚ) * (8 / 100) := by positivity
  have hB0 : (0 : ℚ) ≤ (H : ℚ) * ((maxd : ℚ) / ((size : Nat) : ℚ)) := by
    have : (0 : ℚ) ≤ (maxd : ℚ) := by exact_mod_cast hmaxd
    positivity
  have hC0 : (0 : ℚ) ≤ (H : ℚ) * (1 / 2) := by positivity
  have hAfl := qtruncZ_eq_floor _ hA0
  have hBfl := qtruncZ_eq_floor _ hB0
  have hCfl := qtruncZ_eq_floor _ hC0
  have hAH : qtruncZ ((H : ℚ) * (8 / 100)) ≤ H := by
    rw [hAfl]
    calc ⌊(H : ℚ) * (8 / 100)⌋ ≤ ⌊(H : ℚ)⌋ :=
          Int.floor_le_floor (mul_le_of_le_one_right hHq (by norm_num))
      _ = H := Int.floor_intCast H
  have hCH : qtruncZ ((H : ℚ) * (1 / 2)) ≤ H := by
    rw [hCfl]
    calc ⌊(H : ℚ) * (1 / 2)⌋ ≤ ⌊(H : ℚ)⌋ :=
          Int.floor_le_floor (mul_le_of_le_one_right hHq (by norm_num))
      _ = H := Int.floor_intCast H
  have hAnn : 0 ≤ qtruncZ ((H : ℚ) * (8 / 100)) := by
    rw [hAfl]; exact Int.floor_nonneg.mpr hA0
  have htle : max (qtruncZ ((H : ℚ) * (8 / 100)))
      (min (qtruncZ ((H : ℚ) * ((maxd : ℚ) / ((size : Nat) : ℚ))))
           (qtruncZ ((H : ℚ) * (1 / 2)))) ≤ H := by
    apply max_le hAH
    exact le_trans (min_le_right _ _) hCH
  have hdead : computeThumbMinHeight H maxd size =
      max (qtruncZ ((H : ℚ) * (8 / 100)))
        (min (qtruncZ ((H : ℚ) * ((maxd : ℚ) / ((size : Nat) : ℚ))))
             (qtruncZ ((H : ℚ) * (1 / 2)))) := by
    rw [computeThumbMinHeight, if_neg (not_lt.mpr htle)]
  refine ⟨?_, ?_, ?_, ?_, hdead⟩
  · rw [computeActualMaxDisplayItems]
    have hdiv : 0 ≤ Int.tdiv usable (itemH + spacing) := Int.tdiv_nonneg husable (le_of_lt hitem)
    rw [if_pos hitem]
    split_ifs with h
    · norm_num
    · omega
  · rw [hdead]
    exact le_trans hAnn (le_max_left _ _)
  · rw [hdead]; exact htle
  · intro h13
    rw [hdead]
    have : 1 ≤ qtruncZ ((H : ℚ) * (8 / 100)) := by
      rw [hAfl]
      rw [Int.le_floor]
      have : (13 : ℚ) ≤ (H : ℚ) := by exact_mod_cast h13
      nlinarith
    exact le_trans this (le_max_left _ _)

/-- Witness for `layout_clamping_amended` at a concrete small layout:
a 160×128 portrait screen (usable height 92, item pitch 21, 38 px
track, 5 visible of 20 items). -/
theorem layout_clamping_amended_witness :
    1 ≤ computeActualMaxDisplayItems 92 16 5 20 ∧
    0 ≤ computeThumbMinHeight 38 5 20 ∧
    computeThumbMinHeight 38 5 20 ≤ 38 ∧
    1 ≤ computeThumbMinHeight 38 5 20 := by
  have h := layout_clamping_amended 92 16 5 20 38 5 (by norm_num) (by norm_num)
    (by norm_num) (by norm_num) (by norm_num)
  exact ⟨h.1, h.2.1, h.2.2.1, h.2.2.2.1 (by norm_num)⟩

/-- C10: `drawScrollbar` draws nothing unless the item count strictly
exceeds the visible capacity and the capacity is nonzero; whenever it
does draw, the divisor `currentMenuSize - actualMaxDisplayItems` of the
thumb-position computation is at least 1. -/
theorem scrollbar_guard (H y tmin : ℤ) (maxd size start : Nat) :
    (size ≤ maxd ∨ maxd = 0 → drawScrollbar H y tmin maxd size start = none) ∧
    (∀ d, drawScrollbar H y tmin maxd size start = some d →
        maxd < size ∧ maxd ≠ 0 ∧ 1 ≤ (size : ℤ) - (maxd : ℤ)) := by
  constructor
  · intro h
    rw [drawScrollbar, if_pos h]
  · intro d h
    rw [drawScrollbar] at h
    by_cases hc : size ≤ maxd ∨ maxd = 0
    · rw [if_pos hc] at h
      exact absurd h (by simp)
    · push_neg at hc
      exact ⟨hc.1, hc.2, by omega⟩

/-- Witness for `scrollbar_guard`: a 3-item menu with 5 visible rows
draws no scrollbar, and a drawn 20-item scrollbar has divisor ≥ 1. -/
theorem scrollbar_guard_witness :
    drawScrollbar 38 39 3 5 3 0 = none ∧
    (5 < 20 ∧ (5 : Nat) ≠ 0 ∧ 1 ≤ ((20 : Nat) : ℤ) - ((5 : Nat) : ℤ)) :=
  ⟨(scrollbar_guard 38 39 3 5 3 0).1 (Or.inl (by norm_num)),
   (scrollbar_guard 38 39 3 5 20 0).2 ⟨9, 39⟩ (by decide)⟩

/-- A channel that reports done has been snapped: current set to target,
velocity and error zeroed. -/
theorem animateSingleValue_done_out (form intervalMs durationMs : Nat) (v : SVal) (dt : ℚ)
    (h : (animateSingleValue form intervalMs durationMs v dt).2 = true) :
    (animateSingleValue form intervalMs durationMs v dt).1 =
      { v with cur := v.tgt, err := 0, vel := 0 } := by
  have hf := (animateSingleValue_done_iff form intervalMs durationMs v dt).mp h
  unfold animateSingleValue
  rw [if_pos hf]

/-- C5 (counterexample to the claim as stated): a reachable state with
`animationActive == false` whose width current and target differ by 2 px
(beyond the 0.5 convergence tolerance).  Root menu of two items with
different label widths, switched to fixed-top, then one `selectNext`:
the snap writes the new rectangle into the `_cur` fields but leaves the
stale `_tgt` fields behind. -/
theorem slider_idle_stale_target :
    cexSnapState.animationActive = false ∧
    cexSnapState.sliderAnim.w_cur = 32 ∧ cexSnapState.sliderAnim.w_tgt = 30 ∧
    ¬ |cexSnapState.sliderAnim.w_cur - cexSnapState.sliderAnim.w_tgt| < 1 / 2 ∧
    cexSnapState.sliderAnim.w_cur ≠ cexSnapState.sliderAnim.w_tgt := by
  refine ⟨by decide, by decide, by decide, ?_, by decide⟩
  rw [show cexSnapState.sliderAnim.w_cur = 32 from by decide,
      show cexSnapState.sliderAnim.w_tgt = 30 from by decide]
  norm_num [abs_lt]

/-- C5 (amended): when an `updateAnimation` tick completes the slider
animation (clearing `animationActive`), every component satisfies
`current == target` exactly and `velocity == 0`; and a `selectNext`
that scrolls the viewport snaps — `animationActive` is false for that
frame and the slider's current rectangle equals the freshly recomputed
target rectangle of the new selection — but the stored target and
velocity fields are left unchanged (so `current` can differ from the
stale stored target while idle). -/
theorem slider_idle_and_snap_amended :
    (∀ (env : Env) (a a' : AnimationState) (dt : ℚ),
        updateAnimationTick env a dt = (a', true) →
        a'.x_cur = a'.x_tgt ∧ a'.y_cur = a'.y_tgt ∧ a'.w_cur = a'.w_tgt ∧ a'.h_cur = a'.h_tgt ∧
        a'.x_vel = 0 ∧ a'.y_vel = 0 ∧ a'.w_vel = 0 ∧ a'.h_vel = 0) ∧
    (∀ (env : Env) (s : NavState),
        s.currentMenuSize ≠ 0 → ¬ (s.currentMenuSize - 1 ≤ s.selectedIndex) →
        s.banOperation = false → s.sliderDisplayMode = .followSelection →
        s.startIndex + env.actualMaxDisplayItems ≤ s.selectedIndex + 1 →
        (selectNext env s).animationActive = false ∧
        (selectNext env s).sliderAnim.x_cur =
          (calculateSliderTargetRect env (selectNext env s) (selectNext env s).selectedIndex).x ∧
        (selectNext env s).sliderAnim.y_cur =
          (calculateSliderTargetRect env (selectNext env s) (selectNext env s).selectedIndex).y ∧
        (selectNext env s).sliderAnim.w_cur =
          (calculateSliderTargetRect env (selectNext env s) (selectNext env s).selectedIndex).width ∧
        (selectNext env s).sliderAnim.h_cur =
          (calculateSliderTargetRect env (selectNext env s) (selectNext env s).selectedIndex).height ∧
        (selectNext env s).sliderAnim.x_tgt = s.sliderAnim.x_tgt ∧
        (selectNext env s).sliderAnim.y_tgt = s.sliderAnim.y_tgt ∧
        (selectNext env s).sliderAnim.w_tgt = s.sliderAnim.w_tgt ∧
        (selectNext env s).sliderAnim.h_tgt = s.sliderAnim.h_tgt ∧
        (selectNext env s).sliderAnim.x_vel = s.sliderAnim.x_vel ∧
        (selectNext env s).sliderAnim.y_vel = s.sliderAnim.y_vel ∧
        (selectNext env s).sliderAnim.w_vel = s.sliderAnim.w_vel ∧
        (selectNext env s).sliderAnim.h_vel = s.sliderAnim.h_vel) := by
  constructor
  · intro env a a' dt h
    have h2 : (updateAnimationTick env a dt).2 = true := by rw [h]
    have h1 : (updateAnimationTick env a dt).1 = a' := by rw [h]
    simp only [updateAnimationTick, Bool.and_eq_true] at h2
    obtain ⟨⟨⟨hx, hy⟩, hw⟩, hh⟩ := h2
    have hxo := animateSingleValue_done_out env.animationForm env.animIntervalMs env.animDurationMs
        ⟨a.x_cur, a.x_tgt, a.x_vel, a.x_err⟩ dt hx
    have hyo := animateSingleValue_done_out env.animationForm env.animIntervalMs env.animDurationMs
        ⟨a.y_cur, a.y_tgt, a.y_vel, a.y_err⟩ dt hy
    have hwo := animateSingleValue_done_out env.animationForm env.animIntervalMs env.animDurationMs
        ⟨a.w_cur, a.w_tgt, a.w_vel, a.h_err⟩ dt hw
    simp only [hwo] at hh
    have hho := animateSingleValue_done_out env.animationForm env.animIntervalMs env.animDurationMs
        ⟨a.h_cur, a.h_tgt, a.h_vel, 0⟩ dt hh
    rw [← h1]
    simp only [updateAnimationTick, hxo, hyo, hwo, hho]
    simp
  · intro env s h0 h1 hban hmode hscroll
    have hsn : selectNext env s =
        snapSlider env { s with selectedIndex := s.selectedIndex + 1,
                                startIndex := s.selectedIndex + 1 + 1 - env.actualMaxDisplayItems } := by
      rw [selectNext]
      rw [if_neg (by push_neg; exact ⟨h0, not_le.mp h1⟩)]
      rw [if_neg (by simp [hban])]
      simp only [hmode]
      rw [if_pos hscroll]
    rw [hsn]
    exact ⟨rfl, rfl, rfl, rfl, rfl, rfl, rfl, rfl, rfl, rfl, rfl, rfl, rfl⟩

/-- Witness for `slider_idle_and_snap_amended`: completion at the
already-converged zero state, and Scenario B's fifth `selectNext` (20
items, 5 visible, from index 4 with viewport at 0) is a snap that yields
`selectedIndex = 5`, `startIndex = 1`. -/
theorem slider_idle_and_snap_amended_witness :
    (AnimationState.zero.x_cur = AnimationState.zero.x_tgt ∧
     AnimationState.zero.y_cur = AnimationState.zero.y_tgt ∧
     AnimationState.zero.w_cur = AnimationState.zero.w_tgt ∧
     AnimationState.zero.h_cur = AnimationState.zero.h_tgt ∧
     AnimationState.zero.x_vel = 0 ∧ AnimationState.zero.y_vel = 0 ∧
     AnimationState.zero.w_vel = 0 ∧ AnimationState.zero.h_vel = 0) ∧
    (selectNext env0 scenBState).animationActive = false ∧
    (selectNext env0 scenBState).sliderAnim.y_cur =
      (calculateSliderTargetRect env0 (selectNext env0 scenBState)
        (selectNext env0 scenBState).selectedIndex).y ∧
    (selectNext env0 scenBState).selectedIndex = 5 ∧
    (selectNext env0 scenBState).startIndex = 1 := by
  have hdone : updateAnimationTick env0 AnimationState.zero 0 = (AnimationState.zero, true) := by
    simp only [updateAnimationTick, AnimationState.zero, env0]
    norm_num [animateSingleValue]
  have hb := slider_idle_and_snap_amended.2 env0 scenBState (by decide) (by decide)
    (by decide) (by decide) (by decide)
  exact ⟨slider_idle_and_snap_amended.1 env0 AnimationState.zero AnimationState.zero 0 hdone,
         hb.1, hb.2.2.1, by decide, by decide⟩

/-- C3 (counterexample to the claim as stated): after nine descents the
depth is 9 and the selected item still owns a submenu, yet the tenth
`select()` — descending into the 10th nested submenu, which the claim
(capacity 10, only the 11th rejected) says should push and increment —
leaves the whole state, and in particular `currentDepth()`, unchanged at
9.  The guard is `menuLevel < 9` ("Max 10 levels (0-9)"), so only nine
triples are ever pushed. -/
theorem capacity_counterexample :
    chainDeep.menuLevel = 9 ∧
    (chainDeep.currentMenu.getD chainDeep.selectedIndex default).subMenu.isSome = true ∧
    selectOp env0 80 chainDeep = chainDeep ∧
    (selectOp env0 80 chainDeep).menuLevel ≠ 10 := by
  refine ⟨by decide, by decide, rfl, by decide⟩

/-- C3 (amended): the history arrays have 10 slots but the guard
`menuLevel < 9` caps the depth at 9 (10 levels counting the root): a
`select()` on an item with children at depth ≤ 8 pushes exactly one
`(menu, size, selectedIndex)` triple and increments the depth (resetting
selection and viewport to 0), and the descent into the 10th nested
submenu — attempted at depth 9 — is silently rejected, leaving the state
unchanged. -/
theorem capacity_amended (env : Env) (sh : ℤ) (s : NavState)
    (hne : s.currentMenu.isEmpty = false) (hsel : s.selectedIndex < s.currentMenuSize)
    (hban : s.banOperation = false)
    (hcb : (s.currentMenu.getD s.selectedIndex default).cb = none)
    (hsub : (s.currentMenu.getD s.selectedIndex default).subMenu.isSome = true) :
    (9 ≤ s.menuLevel → selectOp env sh s = s) ∧
    (s.menuLevel < 9 →
        (selectOp env sh s).menuLevel = s.menuLevel + 1 ∧
        (selectOp env sh s).menuHistory s.menuLevel = s.currentMenu ∧
        (selectOp env sh s).menuSizeHistory s.menuLevel = s.currentMenuSize ∧
        (selectOp env sh s).selectedIndexHistory s.menuLevel = s.selectedIndex ∧
        (selectOp env sh s).selectedIndex = 0 ∧
        (selectOp env sh s).startIndex = 0) := by
  obtain ⟨sub, hsome⟩ := Option.isSome_iff_exists.mp hsub
  have hred : selectOp env sh s =
      (if s.menuLevel < 9 then
        (let s2 : NavState := { s with
          menuHistory := fun i => if i = s.menuLevel then s.currentMenu else s.menuHistory i
          menuSizeHistory := fun i => if i = s.menuLevel then s.currentMenuSize else s.menuSizeHistory i
          selectedIndexHistory := fun i => if i = s.menuLevel then s.selectedIndex else s.selectedIndexHistory i
          menuLevel := s.menuLevel + 1
          currentMenu := sub
          currentMenuSize := (s.currentMenu.getD s.selectedIndex default).subMenuSize
          selectedIndex := 0
          startIndex := 0 }
         { (if 0 < s2.currentMenuSize then armSlider env s2 else parkSlider env s2) with
            animationActive := true })
       else s) := by
    rw [selectOp]
    rw [if_neg (by simp only [hne, Bool.false_eq_true, false_or]; omega)]
    rw [if_neg (by simp [hban])]
    simp only [hcb, hsome]
  rw [hred]
  constructor
  · intro h9
    rw [if_neg (not_lt.mpr h9)]
  · intro h9
    rw [if_pos h9]
    refine ⟨?_, ?_, ?_, ?_, ?_, ?_⟩ <;> dsimp only <;> split_ifs <;>
      simp [armSlider, parkSlider]

/-- Witness for `capacity_amended`: rejection at the depth-9 chain state,
and a successful push at the depth-0 two-level tree. -/
theorem capacity_amended_witness :
    selectOp env0 80 chainDeep = chainDeep ∧
    (selectOp env0 80 symRoot).menuLevel = symRoot.menuLevel + 1 :=
  ⟨(capacity_amended env0 80 chainDeep (by decide) (by decide) (by decide) (by decide)
      (by decide)).1 (by decide),
   ((capacity_amended env0 80 symRoot (by decide) (by decide) (by decide) (by decide)
      (by decide)).2 (by decide)).1⟩

/-- C4 (counterexample to the claim as stated): a reachable depth-0
window-mode state (a root item whose callback requests the window
sequence) on which `back()` is a complete no-op — the window mode is not
cleared and `OperationBanned` stays set, because the entire body of
`back()` is guarded by `menuLevel > 0`. -/
theorem back_window_counterexample :
    windowState0.windowType = true ∧ windowState0.banOperation = true ∧
    windowState0.menuLevel = 0 ∧
    back env0 windowState0 = windowState0 := by
  refine ⟨by decide, by decide, by decide, rfl⟩

/-- C4 (amended): `back()` is a no-op exactly when the depth is 0,
regardless of window-animation mode.  At depth > 0 in window-animation
mode it clears that mode, re-arms the ordinary slider tween toward the
current selection's rectangle, and lifts `OperationBanned`, with no
change to the tree pointer, menu size, selected index, viewport or
depth; at depth > 0 outside window mode it pops one level. -/
theorem back_behavior (env : Env) (s : NavState) :
    (s.menuLevel = 0 → back env s = s) ∧
    (0 < s.menuLevel → s.windowType = true →
        (back env s).windowType = false ∧
        (back env s).banOperation = false ∧
        (back env s).animationActive = true ∧
        (back env s).currentMenu = s.currentMenu ∧
        (back env s).currentMenuSize = s.currentMenuSize ∧
        (back env s).selectedIndex = s.selectedIndex ∧
        (back env s).startIndex = s.startIndex ∧
        (back env s).menuLevel = s.menuLevel ∧
        (back env s).sliderAnim.x_tgt =
          ((qtruncZ (calculateSliderTargetRect env s s.selectedIndex).x : ℤ) : ℚ) ∧
        (back env s).sliderAnim.y_tgt =
          ((qtruncZ (calculateSliderTargetRect env s s.selectedIndex).y : ℤ) : ℚ) ∧
        (back env s).sliderAnim.w_tgt =
          ((qtruncZ (calculateSliderTargetRect env s s.selectedIndex).width : ℤ) : ℚ) ∧
        (back env s).sliderAnim.h_tgt =
          ((qtruncZ (calculateSliderTargetRect env s s.selectedIndex).height : ℤ) : ℚ)) ∧
    (0 < s.menuLevel → s.windowType = false → (back env s).menuLevel = s.menuLevel - 1) := by
  refine ⟨?_, ?_, ?_⟩
  · intro h0
    rw [back, if_pos h0]
  · intro hpos hw
    have hred : back env s =
        { (armSlider env { s with windowType := false }) with banOperation := false } := by
      rw [back, if_neg (by omega), if_neg (by simp [hw])]
    rw [hred]
    exact ⟨rfl, rfl, rfl, rfl, rfl, rfl, rfl, rfl, rfl, rfl, rfl, rfl⟩
  · intro hpos hw
    rw [back, if_neg (by omega), if_pos hw]
    dsimp only
    split_ifs <;> simp [armSlider, parkSlider]

/-- Witness for `back_behavior`: the depth-0 no-op (even in window
mode), the depth-1 window exit, and a depth-1 ordinary pop. -/
theorem back_behavior_witness :
    back env0 windowState0 = windowState0 ∧
    (back env0 windowState1).windowType = false ∧
    (back env0 windowState1).banOperation = false ∧
    (back env0 windowState1).menuLevel = windowState1.menuLevel ∧
    (back env0 (selectOp env0 80 symRoot)).menuLevel = (selectOp env0 80 symRoot).menuLevel - 1 :=
  ⟨(back_behavior env0 windowState0).1 (by decide),
   ((back_behavior env0 windowState1).2.1 (by decide) (by decide)).1,
   ((back_behavior env0 windowState1).2.1 (by decide) (by decide)).2.1,
   ((back_behavior env0 windowState1).2.1 (by decide) (by decide)).2.2.2.2.2.2.2.1,
   (back_behavior env0 (selectOp env0 80 symRoot)).2.2 (by decide) (by decide)⟩

/-- Unpacking of one descending step's side conditions. -/
theorem descStep_spec (s : NavState) (h : descStep s = true) :
    s.currentMenu.isEmpty = false ∧ s.selectedIndex < s.currentMenuSize ∧
    (s.currentMenu.getD s.selectedIndex default).cb = none ∧
    (s.currentMenu.getD s.selectedIndex default).subMenu.isSome = true ∧
    s.menuLevel < 9 := by
  simp only [descStep, Bool.and_eq_true, Bool.not_eq_true', decide_eq_true_eq] at h
  exact ⟨h.1.1.1.1, h.1.1.1.2, h.1.1.2, h.1.2, h.2⟩

/-- Field-level description of a descending `select()`: depth increments,
window/ban flags pass through, selection and viewport reset, and the
three history arrays are written exactly at index `menuLevel`. -/
theorem selectOp_descend_fields (env : Env) (sh : ℤ) (s : NavState)
    (hne : s.currentMenu.isEmpty = false) (hsel : s.selectedIndex < s.currentMenuSize)
    (hban : s.banOperation = false)
    (hcb : (s.currentMenu.getD s.selectedIndex default).cb = none)
    (hsub : (s.currentMenu.getD s.selectedIndex default).subMenu.isSome = true)
    (hlvl : s.menuLevel < 9) :
    (selectOp env sh s).menuLevel = s.menuLevel + 1 ∧
    (selectOp env sh s).windowType = s.windowType ∧
    (selectOp env sh s).banOperation = s.banOperation ∧
    (selectOp env sh s).selectedIndex = 0 ∧
    (selectOp env sh s).startIndex = 0 ∧
    (∀ i, (selectOp env sh s).menuHistory i =
        if i = s.menuLevel then s.currentMenu else s.menuHistory i) ∧
    (∀ i, (selectOp env sh s).menuSizeHistory i =
        if i = s.menuLevel then s.currentMenuSize else s.menuSizeHistory i) ∧
    (∀ i, (selectOp env sh s).selectedIndexHistory i =
        if i = s.menuLevel then s.selectedIndex else s.selectedIndexHistory i) := by
  obtain ⟨sub, hsome⟩ := Option.isSome_iff_exists.mp hsub
  have hred : selectOp env sh s =
      (let s2 : NavState := { s with
        menuHistory := fun i => if i = s.menuLevel then s.currentMenu else s.menuHistory i
        menuSizeHistory := fun i => if i = s.menuLevel then s.currentMenuSize else s.menuSizeHistory i
        selectedIndexHistory := fun i => if i = s.menuLevel then s.selectedIndex else s.selectedIndexHistory i
        menuLevel := s.menuLevel + 1
        currentMenu := sub
        currentMenuSize := (s.currentMenu.getD s.selectedIndex default).subMenuSize
        selectedIndex := 0
        startIndex := 0 }
       { (if 0 < s2.currentMenuSize then armSlider env s2 else parkSlider env s2) with
          animationActive := true }) := by
    rw [selectOp]
    rw [if_neg (by simp only [hne, Bool.false_eq_true, false_or]; omega)]
    rw [if_neg (by simp [hban])]
    simp only [hcb, hsome]
    rw [if_pos hlvl]
  rw [hred]
  refine ⟨?_, ?_, ?_, ?_, ?_, fun i => ?_, fun i => ?_, fun i => ?_⟩ <;>
    dsimp only <;> split_ifs <;> simp_all [armSlider, parkSlider]

/-- Field-level description of a popping `back()` (depth > 0, not in
window mode): current menu/size/selection are restored from the history
arrays at `menuLevel - 1`, the depth decrements, flags pass through, and
the history arrays themselves are untouched. -/
theorem back_pop_fields (env : Env) (s : NavState)
    (hpos : 0 < s.menuLevel) (hw : s.windowType = false) :
    (back env s).currentMenu = s.menuHistory (s.menuLevel - 1) ∧
    (back env s).currentMenuSize = s.menuSizeHistory (s.menuLevel - 1) ∧
    (back env s).selectedIndex = s.selectedIndexHistory (s.menuLevel - 1) ∧
    (back env s).menuLevel = s.menuLevel - 1 ∧
    (back env s).windowType = s.windowType ∧
    (back env s).banOperation = s.banOperation ∧
    (∀ i, (back env s).menuHistory i = s.menuHistory i) ∧
    (∀ i, (back env s).menuSizeHistory i = s.menuSizeHistory i) ∧
    (∀ i, (back env s).selectedIndexHistory i = s.selectedIndexHistory i) := by
  rw [back, if_neg (by omega), if_pos hw]
  refine ⟨?_, ?_, ?_, ?_, ?_, ?_, fun i => ?_, fun i => ?_, fun i => ?_⟩ <;>
    dsimp only <;> split_ifs <;> simp [armSlider, parkSlider]

/-- The strengthened restore lemma behind history symmetry: `k` descents
followed by `k` pops restore menu, size, selection and depth, keep the
window/ban flags clear, and leave the live prefix of the history arrays
untouched. -/
theorem selectIter_backIter_restore (env : Env) (sh : ℤ) :
    ∀ (k : Nat) (s : NavState), descends env sh k s = true →
      s.banOperation = false → s.windowType = false →
      (backIter env k (selectIter env sh k s)).currentMenu = s.currentMenu ∧
      (backIter env k (selectIter env sh k s)).currentMenuSize = s.currentMenuSize ∧
      (backIter env k (selectIter env sh k s)).selectedIndex = s.selectedIndex ∧
      (backIter env k (selectIter env sh k s)).menuLevel = s.menuLevel ∧
      (backIter env k (selectIter env sh k s)).windowType = false ∧
      (backIter env k (selectIter env sh k s)).banOperation = false ∧
      (∀ i, i < s.menuLevel →
        (backIter env k (selectIter env sh k s)).menuHistory i = s.menuHistory i ∧
        (backIter env k (selectIter env sh k s)).menuSizeHistory i = s.menuSizeHistory i ∧
        (backIter env k (selectIter env sh k s)).selectedIndexHistory i = s.selectedIndexHistory i)
  | 0, s, _, hb, hw => ⟨rfl, rfl, rfl, rfl, hw, hb, fun _ _ => ⟨rfl, rfl, rfl⟩⟩
  | k + 1, s, hd, hb, hw => by
    simp only [descends, Bool.and_eq_true] at hd
    obtain ⟨hstep, hd'⟩ := hd
    obtain ⟨hne, hsel, hcb, hsub, hlvl⟩ := descStep_spec s hstep
    obtain ⟨fLvl, fWin, fBan, _, _, fMH, fSH, fIH⟩ :=
      selectOp_descend_fields env sh s hne hsel hb hcb hsub hlvl
    have ih := selectIter_backIter_restore env sh k (selectOp env sh s) hd'
      (by rw [fBan, hb]) (by rw [fWin, hw])
    obtain ⟨iMenu, iSize, iSel, iLvl, iWin, iBan, iHist⟩ := ih
    set t := backIter env k (selectIter env sh k (selectOp env sh s)) with ht
    have htpos : 0 < t.menuLevel := by rw [iLvl, fLvl]; omega
    obtain ⟨bMenu, bSize, bSel, bLvl, bWin, bBan, bMH, bSH, bIH⟩ :=
      back_pop_fields env t htpos iWin
    have hlvlEq : t.menuLevel - 1 = s.menuLevel := by rw [iLvl, fLvl]; omega
    have hsLt : s.menuLevel < (selectOp env sh s).menuLevel := by rw [fLvl]; omega
    have hMenuAt := (iHist s.menuLevel (by rw [fLvl]; omega)).1
    have hSizeAt := (iHist s.menuLevel (by rw [fLvl]; omega)).2.1
    have hSelAt := (iHist s.menuLevel (by rw [fLvl]; omega)).2.2
    refine ⟨?_, ?_, ?_, ?_, ?_, ?_, ?_⟩
    · show (back env t).currentMenu = s.currentMenu
      rw [bMenu, hlvlEq, hMenuAt, fMH, if_pos rfl]
    · show (back env t).currentMenuSize = s.currentMenuSize
      rw [bSize, hlvlEq, hSizeAt, fSH, if_pos rfl]
    · show (back env t).selectedIndex = s.selectedIndex
      rw [bSel, hlvlEq, hSelAt, fIH, if_pos rfl]
    · show (back env t).menuLevel = s.menuLevel
      rw [bLvl, hlvlEq]
    · show (back env t).windowType = false
      rw [bWin, iWin]
    · show (back env t).banOperation = false
      rw [bBan, iBan]
    · intro i hi
      have hiLt : i < (selectOp env sh s).menuLevel := by rw [fLvl]; omega
      have hine : ¬ i = s.menuLevel := by omega
      refine ⟨?_, ?_, ?_⟩
      · show (back env t).menuHistory i = s.menuHistory i
        rw [bMH i, (iHist i hiLt).1, fMH, if_neg hine]
      · show (back env t).menuSizeHistory i = s.menuSizeHistory i
        rw [bSH i, (iHist i hiLt).2.1, fSH, if_neg hine]
      · show (back env t).selectedIndexHistory i = s.selectedIndexHistory i
        rw [bIH i, (iHist i hiLt).2.2, fIH, if_neg hine]

/-- C2: for any sequence of `k` `select()` calls each descending into a
child menu (no window-animation sequence involved), followed by `k`
`back()` calls, the final current-menu pointer, menu size, and selected
index equal their initial values. -/
theorem history_symmetry (env : Env) (sh : ℤ) (k : Nat) (s : NavState)
    (hd : descends env sh k s = true) (hb : s.banOperation = false)
    (hw : s.windowType = false) :
    (backIter env k (selectIter env sh k s)).currentMenu = s.currentMenu ∧
    (backIter env k (selectIter env sh k s)).currentMenuSize = s.currentMenuSize ∧
    (backIter env k (selectIter env sh k s)).selectedIndex = s.selectedIndex :=
  have h := selectIter_backIter_restore env sh k s hd hb hw
  ⟨h.1, h.2.1, h.2.2.1⟩

/-- Witness for `history_symmetry`: two descents and two pops on the
concrete two-level tree restore menu, size and selection. -/
theorem history_symmetry_witness :
    (backIter env0 2 (selectIter env0 80 2 symRoot)).currentMenu = symRoot.currentMenu ∧
    (backIter env0 2 (selectIter env0 80 2 symRoot)).currentMenuSize = symRoot.currentMenuSize ∧
    (backIter env0 2 (selectIter env0 80 2 symRoot)).selectedIndex = symRoot.selectedIndex :=
  history_symmetry env0 80 2 symRoot (by decide) (by decide) (by decide)

/-- Bounds of the `back()` viewport recomputation in follow mode: the
result keeps the restored selection visible and, when the menu
overfills the screen, never runs past its bottom. -/
theorem backStartFollow_bounds (env : Env) (st0 rSel rSize : Nat)
    (hmax : 1 ≤ env.actualMaxDisplayItems) (hsel : rSel < rSize) :
    backStartFollow env st0 rSel rSize ≤ rSel ∧
    rSel < backStartFollow env st0 rSel rSize + env.actualMaxDisplayItems ∧
    (env.actualMaxDisplayItems < rSize →
      backStartFollow env st0 rSel rSize + env.actualMaxDisplayItems ≤ rSize) := by
  rw [backStartFollow]
  split_ifs <;> omega

/-- `selectNext` never changes the display mode. -/
theorem selectNext_mode (env : Env) (s : NavState) :
    (selectNext env s).sliderDisplayMode = s.sliderDisplayMode := by
  rw [selectNext]
  split_ifs
  · rfl
  · rfl
  · cases hm : s.sliderDisplayMode <;> simp only [hm] <;> (try split_ifs) <;> rfl

/-- `selectNext` preserves the navigation invariant. -/
theorem invAll_selectNext (env : Env) (hmax : 1 ≤ env.actualMaxDisplayItems)
    (s : NavState) (h : InvAll env s) : InvAll env (selectNext env s) := by
  obtain ⟨⟨h1, h2, h3⟩, hh⟩ := h
  rw [selectNext]
  split_ifs with hg hb
  · exact ⟨⟨h1, h2, h3⟩, hh⟩
  · exact ⟨⟨h1, h2, h3⟩, hh⟩
  · push_neg at hg
    cases hm : s.sliderDisplayMode <;> simp only [hm] <;> (try split_ifs) <;>
      exact ⟨⟨by simp only [snapSlider, armSlider]; omega,
              by simp only [snapSlider, armSlider]; omega,
              by simp only [snapSlider, armSlider]; omega⟩, hh⟩

/-- `selectPrev` never changes the display mode. -/
theorem selectPrev_mode (env : Env) (s : NavState) :
    (selectPrev env s).sliderDisplayMode = s.sliderDisplayMode := by
  rw [selectPrev]
  split_ifs
  · rfl
  · rfl
  · cases hm : s.sliderDisplayMode <;> simp only [hm] <;> (try split_ifs) <;> rfl

/-- `selectPrev` preserves the navigation invariant. -/
theorem invAll_selectPrev (env : Env) (hmax : 1 ≤ env.actualMaxDisplayItems)
    (s : NavState) (h : InvAll env s) : InvAll env (selectPrev env s) := by
  obtain ⟨⟨h1, h2, h3⟩, hh⟩ := h
  rw [selectPrev]
  split_ifs with hg hb
  · exact ⟨⟨h1, h2, h3⟩, hh⟩
  · exact ⟨⟨h1, h2, h3⟩, hh⟩
  · push_neg at hg
    cases hm : s.sliderDisplayMode <;> simp only [hm] <;> (try split_ifs) <;>
      exact ⟨⟨by simp only [snapSlider, armSlider]; omega,
              by simp only [snapSlider, armSlider]; omega,
              by simp only [snapSlider, armSlider]; omega⟩, hh⟩

/-- `setSliderDisplayMode` changes the display mode and the slider
rectangle but none of the navigation fields. -/
theorem setSliderDisplayMode_nav (env : Env) (s : NavState) (m : SliderDisplayMode) :
    (setSliderDisplayMode env s m).selectedIndex = s.selectedIndex ∧
    (setSliderDisplayMode env s m).startIndex = s.startIndex ∧
    (setSliderDisplayMode env s m).currentMenuSize = s.currentMenuSize ∧
    (setSliderDisplayMode env s m).menuLevel = s.menuLevel ∧
    (∀ i, (setSliderDisplayMode env s m).menuSizeHistory i = s.menuSizeHistory i) ∧
    (∀ i, (setSliderDisplayMode env s m).selectedIndexHistory i = s.selectedIndexHistory i) ∧
    (setSliderDisplayMode env s m).sliderDisplayMode = m := by
  rw [setSliderDisplayMode]
  dsimp only
  split_ifs <;> exact ⟨rfl, rfl, rfl, rfl, fun _ => rfl, fun _ => rfl, rfl⟩

/-- `setSliderDisplayMode` preserves the navigation invariant. -/
theorem invAll_setSliderDisplayMode (env : Env) (s : NavState) (m : SliderDisplayMode)
    (h : InvAll env s) : InvAll env (setSliderDisplayMode env s m) := by
  obtain ⟨⟨h1, h2, h3⟩, hh⟩ := h
  obtain ⟨e1, e2, e3, e4, e5, e6, _⟩ := setSliderDisplayMode_nav env s m
  refine ⟨⟨?_, ?_, ?_⟩, ?_⟩
  · rw [e1, e2]; exact h1
  · rw [e1, e2]; exact h2
  · rw [e1, e3]; exact h3
  · intro i hi
    rw [e4] at hi
    rw [e5, e6]
    exact hh i hi

/-- `setRootMenu` establishes the navigation invariant. -/
theorem invAll_setRootMenu (env : Env) (hmax : 1 ≤ env.actualMaxDisplayItems)
    (menu : List Item) (size : Nat) (s : NavState) :
    InvAll env (setRootMenu env menu size s) := by
  rw [setRootMenu]
  split_ifs <;>
    exact ⟨⟨by simp only [parkSlider]; omega, by simp only [parkSlider]; omega,
            by simp only [parkSlider]; omega⟩,
           fun i hi => absurd hi (by simp only [parkSlider]; omega)⟩

/-- `setRootMenu` never changes the display mode. -/
theorem setRootMenu_mode (env : Env) (menu : List Item) (size : Nat) (s : NavState) :
    (setRootMenu env menu size s).sliderDisplayMode = s.sliderDisplayMode := by
  rw [setRootMenu]
  split_ifs <;> rfl

/-- `select()` preserves the navigation invariant. -/
theorem invAll_selectOp (env : Env) (sh : ℤ) (hmax : 1 ≤ env.actualMaxDisplayItems)
    (s : NavState) (h : InvAll env s) : InvAll env (selectOp env sh s) := by
  obtain ⟨⟨h1, h2, h3⟩, hh⟩ := h
  rw [selectOp]
  split_ifs with hg hb
  · exact ⟨⟨h1, h2, h3⟩, hh⟩
  · exact ⟨⟨h1, h2, h3⟩, hh⟩
  · push_neg at hg
    cases hcb : (s.currentMenu.getD s.selectedIndex default).cb <;> simp only [hcb] <;>
      cases hsub : (s.currentMenu.getD s.selectedIndex default).subMenu <;> simp only [hsub] <;>
      (try split_ifs) <;>
      refine ⟨⟨?_, ?_, ?_⟩, ?_⟩ <;>
      first
        | assumption
        | (simp only [armSlider, parkSlider]; omega)
        | (intro i hi
           simp only [armSlider, parkSlider] at hi ⊢
           by_cases hieq : i = s.menuLevel
           · simp only [if_pos hieq]
             omega
           · simp only [if_neg hieq]
             exact hh i (by omega))

/-- `select()` never changes the display mode. -/
theorem selectOp_modeField (env : Env) (sh : ℤ) (s : NavState) :
    (selectOp env sh s).sliderDisplayMode = s.sliderDisplayMode := by
  rw [selectOp]
  split_ifs
  · rfl
  · rfl
  · cases hcb : (s.currentMenu.getD s.selectedIndex default).cb <;> simp only [hcb] <;>
      cases hsub : (s.currentMenu.getD s.selectedIndex default).subMenu <;> simp only [hsub] <;>
      (try split_ifs) <;> rfl

/-- `back()` never changes the display mode. -/
theorem back_modeField (env : Env) (s : NavState) :
    (back env s).sliderDisplayMode = s.sliderDisplayMode := by
  rw [back]
  split_ifs with h0 hw
  · rfl
  · cases hm : s.sliderDisplayMode <;> simp only [hm] <;> split_ifs <;>
      simp [armSlider, parkSlider, hm]
  · rfl


/-- `back()` preserves the navigation invariant. -/
theorem invAll_back (env : Env) (hmax : 1 ≤ env.actualMaxDisplayItems)
    (s : NavState) (h : InvAll env s) : InvAll env (back env s) := by
  obtain ⟨⟨h1, h2, h3⟩, hh⟩ := h
  rw [back]
  split_ifs with h0 hw
  · exact ⟨⟨h1, h2, h3⟩, hh⟩
  · have hsel := hh (s.menuLevel - 1) (by omega)
    have hb := backStartFollow_bounds env s.startIndex
        (s.selectedIndexHistory (s.menuLevel - 1)) (s.menuSizeHistory (s.menuLevel - 1))
        hmax hsel
    cases hm : s.sliderDisplayMode <;> simp only [hm] <;> split_ifs with hsz <;>
      refine ⟨⟨by simp only [armSlider, parkSlider]; omega,
               by simp only [armSlider, parkSlider]; omega,
               by simp only [armSlider, parkSlider]; omega⟩,
              fun i hi => hh i (by simp only [armSlider, parkSlider] at hi; omega)⟩
  · exact ⟨⟨h1, h2, h3⟩, hh⟩

/-- Every reachable state satisfies the navigation invariant. -/
theorem reachAny_invAll (env : Env) (sh : ℤ) (hmax : 1 ≤ env.actualMaxDisplayItems) :
    ∀ s, ReachAny env sh s → InvAll env s := by
  intro s h
  induction h with
  | root menu size => exact invAll_setRootMenu env hmax menu size initialState
  | next _ ih => exact invAll_selectNext env hmax _ ih
  | prev _ ih => exact invAll_selectPrev env hmax _ ih
  | sel _ ih => exact invAll_selectOp env sh hmax _ ih
  | bck _ ih => exact invAll_back env hmax _ ih
  | mode m _ ih => exact invAll_setSliderDisplayMode env _ m ih

/-- `selectNext` preserves the viewport size bound in follow mode. -/
theorem invSize_selectNext (env : Env) (s : NavState) (hA : InvAll env s)
    (hm : s.sliderDisplayMode = .followSelection) (hS : InvSize env s) :
    InvSize env (selectNext env s) := by
  obtain ⟨⟨h1, h2, h3⟩, hh⟩ := hA
  rw [selectNext]
  split_ifs with hg hb
  · exact hS
  · exact hS
  · push_neg at hg
    simp only [hm]
    split_ifs with hscroll
    · intro hlt
      simp only [snapSlider] at hlt ⊢
      omega
    · intro hlt
      simp only [armSlider] at hlt ⊢
      exact hS hlt

/-- `selectPrev` preserves the viewport size bound in follow mode. -/
theorem invSize_selectPrev (env : Env) (s : NavState) (hA : InvAll env s)
    (hm : s.sliderDisplayMode = .followSelection) (hS : InvSize env s) :
    InvSize env (selectPrev env s) := by
  obtain ⟨⟨h1, h2, h3⟩, hh⟩ := hA
  rw [selectPrev]
  split_ifs with hg hb
  · exact hS
  · exact hS
  · push_neg at hg
    simp only [hm]
    split_ifs with hscroll
    · intro hlt
      simp only [snapSlider] at hlt ⊢
      have := hS (by simpa using hlt)
      omega
    · intro hlt
      simp only [armSlider] at hlt ⊢
      exact hS hlt

/-- `select()` preserves the viewport size bound. -/
theorem invSize_selectOp (env : Env) (sh : ℤ) (s : NavState) (hS : InvSize env s) :
    InvSize env (selectOp env sh s) := by
  rw [selectOp]
  split_ifs with hg hb
  · exact hS
  · exact hS
  · cases hcb : (s.currentMenu.getD s.selectedIndex default).cb <;> simp only [hcb] <;>
      cases hsub : (s.currentMenu.getD s.selectedIndex default).subMenu <;> simp only [hsub] <;>
      (try split_ifs) <;>
      first
        | exact hS
        | (intro hlt
           simp only [armSlider, parkSlider] at hlt ⊢
           omega)

/-- `back()` preserves the viewport size bound in follow mode. -/
theorem invSize_back (env : Env) (hmax : 1 ≤ env.actualMaxDisplayItems)
    (s : NavState) (hA : InvAll env s)
    (hm : s.sliderDisplayMode = .followSelection) (hS : InvSize env s) :
    InvSize env (back env s) := by
  obtain ⟨⟨h1, h2, h3⟩, hh⟩ := hA
  rw [back]
  split_ifs with h0 hw
  · exact hS
  · have hsel := hh (s.menuLevel - 1) (by omega)
    have hb := backStartFollow_bounds env s.startIndex
        (s.selectedIndexHistory (s.menuLevel - 1)) (s.menuSizeHistory (s.menuLevel - 1))
        hmax hsel
    simp only [hm]
    split_ifs with hsz <;>
      (intro hlt
       simp only [armSlider, parkSlider] at hlt ⊢
       exact hb.2.2 hlt)
  · exact hS

/-- `setSliderDisplayMode` preserves the viewport size bound. -/
theorem invSize_setSliderDisplayMode (env : Env) (s : NavState) (m : SliderDisplayMode)
    (hS : InvSize env s) : InvSize env (setSliderDisplayMode env s m) := by
  obtain ⟨e1, e2, e3, _, _, _, _⟩ := setSliderDisplayMode_nav env s m
  intro hlt
  rw [e2, e3]
  exact hS (by rwa [e3] at hlt)

/-- `setRootMenu` establishes the viewport size bound. -/
theorem invSize_setRootMenu (env : Env) (menu : List Item) (size : Nat) (s : NavState) :
    InvSize env (setRootMenu env menu size s) := by
  rw [setRootMenu]
  split_ifs <;> (intro hlt; simp only [parkSlider] at hlt ⊢; omega)

/-- Every state reachable in follow-selection-only traces satisfies the
navigation invariant, stays in follow mode, and satisfies the viewport
size bound. -/
theorem reachFollow_inv (env : Env) (sh : ℤ) (hmax : 1 ≤ env.actualMaxDisplayItems) :
    ∀ s, ReachFollow env sh s →
      InvAll env s ∧ s.sliderDisplayMode = .followSelection ∧ InvSize env s := by
  intro s h
  induction h with
  | root menu size =>
      exact ⟨invAll_setRootMenu env hmax menu size initialState,
             setRootMenu_mode env menu size initialState,
             invSize_setRootMenu env menu size initialState⟩
  | next _ ih =>
      exact ⟨invAll_selectNext env hmax _ ih.1,
             (selectNext_mode env _).trans ih.2.1,
             invSize_selectNext env _ ih.1 ih.2.1 ih.2.2⟩
  | prev _ ih =>
      exact ⟨invAll_selectPrev env hmax _ ih.1,
             (selectPrev_mode env _).trans ih.2.1,
             invSize_selectPrev env _ ih.1 ih.2.1 ih.2.2⟩
  | sel _ ih =>
      exact ⟨invAll_selectOp env sh hmax _ ih.1,
             (selectOp_modeField env sh _).trans ih.2.1,
             invSize_selectOp env sh _ ih.2.2⟩
  | bck _ ih =>
      exact ⟨invAll_back env hmax _ ih.1,
             (back_modeField env _).trans ih.2.1,
             invSize_back env hmax _ ih.1 ih.2.1 ih.2.2⟩
  | mode _ ih =>
      exact ⟨invAll_setSliderDisplayMode env _ _ ih.1,
             (setSliderDisplayMode_nav env _ _).2.2.2.2.2.2,
             invSize_setSliderDisplayMode env _ _ ih.2.2⟩

/-- `selectNext` keeps `startIndex = selectedIndex` in fixed-top mode. -/
theorem fixedEq_selectNext (env : Env) (s : NavState)
    (hm : s.sliderDisplayMode = .fixedTop) (he : s.startIndex = s.selectedIndex) :
    (selectNext env s).startIndex = (selectNext env s).selectedIndex := by
  rw [selectNext]
  split_ifs
  · exact he
  · exact he
  · simp only [hm]
    rfl

/-- `selectPrev` keeps `startIndex = selectedIndex` in fixed-top mode. -/
theorem fixedEq_selectPrev (env : Env) (s : NavState)
    (hm : s.sliderDisplayMode = .fixedTop) (he : s.startIndex = s.selectedIndex) :
    (selectPrev env s).startIndex = (selectPrev env s).selectedIndex := by
  rw [selectPrev]
  split_ifs
  · exact he
  · exact he
  · simp only [hm]
    rfl

/-- `select()` keeps `startIndex = selectedIndex` (any mode). -/
theorem fixedEq_selectOp (env : Env) (sh : ℤ) (s : NavState)
    (he : s.startIndex = s.selectedIndex) :
    (selectOp env sh s).startIndex = (selectOp env sh s).selectedIndex := by
  rw [selectOp]
  split_ifs
  · exact he
  · exact he
  · cases hcb : (s.currentMenu.getD s.selectedIndex default).cb <;> simp only [hcb] <;>
      cases hsub : (s.currentMenu.getD s.selectedIndex default).subMenu <;> simp only [hsub] <;>
      (try split_ifs) <;>
      first
        | exact he
        | (simp only [armSlider, parkSlider])

/-- `back()` keeps `startIndex = selectedIndex` in fixed-top mode. -/
theorem fixedEq_back (env : Env) (s : NavState)
    (hm : s.sliderDisplayMode = .fixedTop) (he : s.startIndex = s.selectedIndex) :
    (back env s).startIndex = (back env s).selectedIndex := by
  rw [back]
  split_ifs with h0 hw
  · exact he
  · simp only [hm]
    split_ifs <;> simp only [armSlider, parkSlider]
  · exact he

/-- Every state reachable in fixed-top-only traces stays in fixed-top
mode with `startIndex = selectedIndex`. -/
theorem reachFixed_inv (env : Env) (sh : ℤ) :
    ∀ s, ReachFixed env sh s →
      s.sliderDisplayMode = .fixedTop ∧ s.startIndex = s.selectedIndex := by
  intro s h
  induction h with
  | root menu size =>
      refine ⟨(setSliderDisplayMode_nav env _ _).2.2.2.2.2.2, ?_⟩
      obtain ⟨e1, e2, _, _, _, _, _⟩ :=
        setSliderDisplayMode_nav env (setRootMenu env menu size initialState) .fixedTop
      rw [e1, e2]
      rw [setRootMenu]
      split_ifs <;> rfl
  | next _ ih =>
      exact ⟨(selectNext_mode env _).trans ih.1, fixedEq_selectNext env _ ih.1 ih.2⟩
  | prev _ ih =>
      exact ⟨(selectPrev_mode env _).trans ih.1, fixedEq_selectPrev env _ ih.1 ih.2⟩
  | sel _ ih =>
      exact ⟨(selectOp_modeField env sh _).trans ih.1, fixedEq_selectOp env sh _ ih.2⟩
  | bck _ ih =>
      exact ⟨(back_modeField env _).trans ih.1, fixedEq_back env _ ih.1 ih.2⟩

/-- C1 (amended): for every reachable state of the navigation machine
(arbitrary sequences of `selectNext`, `selectPrev`, `select`, `back`,
`setSliderDisplayMode` after `setRootMenu`),
`viewportStart <= selectedIndex < viewportStart + maxVisibleItems`;
the bound `viewportStart + maxVisible <= size` whenever
`size > maxVisible` holds on traces that stay in follow-selection mode;
and `viewportStart == selectedIndex` holds throughout traces in
fixed-top mode from the root.  (`setSliderDisplayMode` itself does not
re-establish the fixed-top equality, and fixed-top navigation violates
the size bound near the bottom of a long menu — see the
counterexample.) -/
theorem viewport_invariants (env : Env) (sh : ℤ) (hmax : 1 ≤ env.actualMaxDisplayItems) :
    (∀ s, ReachAny env sh s →
        s.startIndex ≤ s.selectedIndex ∧
        s.selectedIndex < s.startIndex + env.actualMaxDisplayItems) ∧
    (∀ s, ReachFollow env sh s → env.actualMaxDisplayItems < s.currentMenuSize →
        s.startIndex + env.actualMaxDisplayItems ≤ s.currentMenuSize) ∧
    (∀ s, ReachFixed env sh s → s.startIndex = s.selectedIndex) :=
  ⟨fun s h => ⟨(reachAny_invAll env sh hmax s h).1.1, (reachAny_invAll env sh hmax s h).1.2.1⟩,
   fun s h => (reachFollow_inv env sh hmax s h).2.2,
   fun s h => (reachFixed_inv env sh s h).2⟩

/-- C1 (counterexample to the claim as stated): switching to fixed-top
after moving the selection leaves `viewportStart /= selectedIndex`
(so the fixed-top equality fails after `setSliderDisplayMode`), and
fixed-top navigation near the bottom of a 6-item menu with 5 visible
rows reaches `viewportStart + maxVisible = 7 > 6 = size`, violating the
unconditional size bound. -/
theorem viewport_claim_counterexample :
    cexModeState.sliderDisplayMode = .fixedTop ∧
    cexModeState.selectedIndex = 1 ∧ cexModeState.startIndex = 0 ∧
    cexFixedState.sliderDisplayMode = .fixedTop ∧
    cexFixedState.currentMenuSize = 6 ∧ env0.actualMaxDisplayItems = 5 ∧
    cexFixedState.startIndex = 2 ∧ cexFixedState.selectedIndex = 2 ∧
    ¬ (cexFixedState.startIndex + env0.actualMaxDisplayItems ≤ cexFixedState.currentMenuSize) := by
  refine ⟨by decide, by decide, by decide, by decide, by decide, by decide, by decide,
          by decide, by decide⟩

/-- Witness for `viewport_invariants` at Scenario B's follow-mode state
and the concrete fixed-top trace. -/
theorem viewport_invariants_witness :
    (scenBState.startIndex ≤ scenBState.selectedIndex ∧
     scenBState.selectedIndex < scenBState.startIndex + env0.actualMaxDisplayItems) ∧
    (env0.actualMaxDisplayItems < scenBState.currentMenuSize →
     scenBState.startIndex + env0.actualMaxDisplayItems ≤ scenBState.currentMenuSize) ∧
    cexFixedState.startIndex = cexFixedState.selectedIndex := by
  have h := viewport_invariants env0 80 (by decide)
  have hBany : ReachAny env0 80 scenBState :=
    ReachAny.next (ReachAny.next (ReachAny.next (ReachAny.next (ReachAny.root menu20 20))))
  have hBfol : ReachFollow env0 80 scenBState :=
    ReachFollow.next (ReachFollow.next (ReachFollow.next (ReachFollow.next
      (ReachFollow.root menu20 20))))
  have hFix : ReachFixed env0 80 cexFixedState :=
    ReachFixed.next (ReachFixed.next
      (ReachFixed.root [itemA, itemA, itemA, itemA, itemA, itemB] 6))
  exact ⟨h.1 scenBState hBany, h.2.1 scenBState hBfol, h.2.2 cexFixedState hFix⟩
